import Mathlib

/-!
# Verification of the discord.js-captcha presentation engine

Shallow embedding of `src/Captcha.ts` and `src/handleChannelType.ts`:
the constructor's option validation and defaulting, the recursive
`handleAttempt` retry loop (answer comparison, attempt bookkeeping,
emitted events and channel side effects), the channel-type resolver,
and the `present` entry point's input validation and delivery logic.
JavaScript optional fields are modelled as `Option`, with explicit
truthiness helpers mirroring `!x`, `x === true` and `x || default`.
-/

namespace DJSCaptcha

/-- JS truthiness of an optional string: `undefined` and `""` are falsy. -/
def truthyStr : Option String → Bool
  | none => false
  | some s => s ≠ ""

/-- JS truthiness of an optional boolean: only `true` is truthy. -/
def truthyBool : Option Bool → Bool
  | none => false
  | some b => b

/-- JS truthiness of an optional number: `undefined` and `0` are falsy. -/
def truthyInt : Option Int → Bool
  | none => false
  | some n => n ≠ 0

/-- The `CaptchaOptions` interface: every field is optional, as in the
TypeScript declaration.  The three custom-embed fields are opaque. -/
structure CaptchaOptions where
  roleID : Option String := none
  channelID : Option String := none
  sendToTextChannel : Option Bool := none
  addRoleOnSuccess : Option Bool := none
  kickOnFailure : Option Bool := none
  caseSensitive : Option Bool := none
  attempts : Option Int := none
  timeout : Option Int := none
  showAttemptCount : Option Bool := none
  customPromptEmbed : Option Unit := none
  customSuccessEmbed : Option Unit := none
  customFailureEmbed : Option Unit := none
deriving Repr, DecidableEq

/-- The four `process.exit(1)` paths of the constructor's option checks. -/
inductive ConstructorError
  | sendToTextChannelNoChannelID
  | addRoleOnSuccessNoRoleID
  | attemptsNotPositive
  | timeoutNotPositive
deriving Repr, DecidableEq

/-- The constructor body of `Captcha` (lines 126-150 of Captcha.ts): the
four fatal checks, in source order, then the defaulting assignments.
`options.attempts && options.attempts < 1` only fires when `attempts` is
truthy (present and nonzero); `options.attempts || 1` replaces a falsy
value (absent or `0`) by `1`; `=== undefined` guards the boolean
defaults; `kickOnFailure` and `sendToTextChannel` are never assigned. -/
def Captcha.construct (options : CaptchaOptions) : Except ConstructorError CaptchaOptions :=
  if options.sendToTextChannel = some true ∧ ¬ truthyStr options.channelID then
    .error .sendToTextChannelNoChannelID
  else if options.addRoleOnSuccess = some true ∧ ¬ truthyStr options.roleID then
    .error .addRoleOnSuccessNoRoleID
  else if truthyInt options.attempts ∧ options.attempts.getD 0 < 1 then
    .error .attemptsNotPositive
  else if truthyInt options.timeout ∧ options.timeout.getD 0 < 1 then
    .error .timeoutNotPositive
  else
    .ok { options with
      addRoleOnSuccess := some (options.addRoleOnSuccess.getD true),
      attempts := some (if truthyInt options.attempts then options.attempts.getD 1 else 1),
      caseSensitive := some (options.caseSensitive.getD true),
      timeout := some (if truthyInt options.timeout then options.timeout.getD 60000 else 60000),
      showAttemptCount := some (options.showAttemptCount.getD true) }

/-- `channel.type === ChannelType.GuildText` distinguishes guild text
channels from direct-message channels. -/
inductive ChanType
  | guildText
  | dm
deriving Repr, DecidableEq

/-- Terminal outcome of one attempt session. -/
inductive Outcome
  | success
  | timeout
  | exhausted
deriving Repr, DecidableEq

/-- The five event names emitted on the Captcha EventEmitter. -/
inductive EventKind
  | prompt
  | answer
  | success
  | timeout
  | failure
deriving Repr, DecidableEq

/-- Shape of one emitted event payload: which keys are present and, for
the data-carrying keys, their values.  `responses` is the history array,
`response` the singular string the `answer` event carries instead. -/
structure Emission where
  kind : EventKind
  hasMember : Bool
  responses : Option (List String)
  response : Option String
  attempts : Option Nat
  captchaText : Option String
  hasOptions : Bool
deriving Repr, DecidableEq

/-- Side effects the engine performs on the channel, member and prompt. -/
inductive Action
  | deletePrompt
  | deleteResponse
  | sendIncorrect
  | sendCorrect
  | scheduleDeleteReply (delayMs : Nat)
  | kick (reason : String)
  | addRole (roleID : Option String)
  | editPrompt
  | resendPrompt
deriving Repr, DecidableEq

/-- One step of the observable trace: an emitted event or a side effect. -/
inductive Step
  | emit (e : Emission)
  | act (a : Action)
deriving Repr, DecidableEq

/-- What `awaitMessages` resolves to in one round: an empty collection
(the timeout elapsed) or one message from the member with the given
content. -/
inductive RoundEvent
  | timeout
  | response (content : String)
deriving Repr, DecidableEq

/-- Result of a completed attempt session: terminal outcome, the
`attemptsTaken` counter at the terminal event, the `captchaResponses`
array, and the ordered trace of events and side effects. -/
structure SessionResult where
  outcome : Outcome
  attempts : Nat
  responses : List String
  trace : List Step
deriving Repr, DecidableEq

/-- `String.prototype.toLowerCase()`: lowercases each character. -/
def jsToLowerCase (s : String) : String :=
  ⟨s.data.map Char.toLower⟩

/-- Line 291: `if (captchaData.options.caseSensitive !== true) answer =
answer.toLowerCase();` — only the response is lowercased, and only when
`caseSensitive` is not strictly `true`. -/
def normalizeAnswer (caseSensitive : Option Bool) (s : String) : String :=
  if caseSensitive ≠ some true then jsToLowerCase s else s

/-- Payload shape shared by the `success`, `timeout` and `failure`
events: member, responses array, attempts count, captcha text, options. -/
def payloadFull (k : EventKind) (hist : List String) (taken : Nat) (text : String) : Emission :=
  { kind := k, hasMember := true, responses := some hist, response := none,
    attempts := some taken, captchaText := some text, hasOptions := true }

/-- Payload of the `answer` event: the singular raw `response` string
replaces the `responses` history array. -/
def answerPayload (content : String) (taken : Nat) (text : String) : Emission :=
  { kind := .answer, hasMember := true, responses := none, response := some content,
    attempts := some taken, captchaText := some text, hasOptions := true }

/-- Payload of the `prompt` event: only member, captchaText and options. -/
def promptPayload (text : String) : Emission :=
  { kind := .prompt, hasMember := true, responses := none, response := none,
    attempts := none, captchaText := some text, hasOptions := true }

/-- `if (captchaData.options.kickOnFailure) await member.kick(...)`. -/
def kickSteps (o : CaptchaOptions) : List Step :=
  if truthyBool o.kickOnFailure then [.act (.kick "Failed to Pass CAPTCHA")] else []

/-- `if (channel.type === ChannelType.GuildText) setTimeout(() => msg.delete(), 3000)`. -/
def schedSteps (chan : ChanType) : List Step :=
  if chan = .guildText then [.act (.scheduleDeleteReply 3000)] else []

/-- Line 293: `if (channel.type === ChannelType.GuildText) await responses.first()?.delete()`. -/
def delRespSteps (chan : ChanType) : List Step :=
  if chan = .guildText then [.act .deleteResponse] else []

/-- `if (captchaData.options.addRoleOnSuccess === true) await member.roles.add(roleID)`. -/
def addRoleSteps (o : CaptchaOptions) : List Step :=
  if o.addRoleOnSuccess = some true then [.act (.addRole o.roleID)] else []

/-- `if (channel.type === ChannelType.GuildText) await captchaEmbed.delete()`. -/
def delPromptSteps (chan : ChanType) : List Step :=
  if chan = .guildText then [.act .deletePrompt] else []

/-- Lines 317-332: on a retriable wrong answer, edit the prompt in a
guild text channel when `showAttemptCount` is truthy (no re-render when
it is falsy), and send a fresh prompt in a non-guild-text channel. -/
def repromptSteps (o : CaptchaOptions) (chan : ChanType) : List Step :=
  if chan = .guildText then
    (if truthyBool o.showAttemptCount then [.act .editPrompt] else [])
  else [.act .resendPrompt]

/-- The recursive `handleAttempt` closure (lines 255-355), driven by the
list of `awaitMessages` resolutions.  An empty collection is the timeout
branch (terminal, prompt deleted unconditionally, kick if truthy); a
message emits `answer` with the raw content, is normalized, appended to
the history and deleted in guild text channels, then either matches
(terminal success), is retriable (`attemptsLeft > 1`: decrement,
increment taken, re-render, recurse) or exhausts the attempts (terminal
failure).  `none` means the supplied event list ran out before the
session terminated. -/
def handleAttempt (o : CaptchaOptions) (chan : ChanType) (captchaText : String) :
    Int → Nat → List String → List RoundEvent → Option SessionResult
  | _, taken, hist, .timeout :: _ =>
      some { outcome := .timeout, attempts := taken, responses := hist,
             trace := .emit (payloadFull .timeout hist taken captchaText) ::
                      .act .deletePrompt :: .act .sendIncorrect ::
                      (kickSteps o ++ schedSteps chan) }
  | attemptsLeft, taken, hist, .response content :: rest =>
      if normalizeAnswer o.caseSensitive content = captchaText then
        some { outcome := .success, attempts := taken,
               responses := hist ++ [normalizeAnswer o.caseSensitive content],
               trace := .emit (answerPayload content taken captchaText) ::
                        (delRespSteps chan ++
                         .emit (payloadFull .success
                           (hist ++ [normalizeAnswer o.caseSensitive content]) taken captchaText) ::
                         (addRoleSteps o ++ delPromptSteps chan ++
                          .act .sendCorrect :: schedSteps chan)) }
      else if attemptsLeft > 1 then
        (handleAttempt o chan captchaText (attemptsLeft - 1) (taken + 1)
            (hist ++ [normalizeAnswer o.caseSensitive content]) rest).map
          (fun r => { r with trace := .emit (answerPayload content taken captchaText) ::
                        (delRespSteps chan ++ repromptSteps o chan ++ r.trace) })
      else
        some { outcome := .exhausted, attempts := taken,
               responses := hist ++ [normalizeAnswer o.caseSensitive content],
               trace := .emit (answerPayload content taken captchaText) ::
                        (delRespSteps chan ++
                         .emit (payloadFull .failure
                           (hist ++ [normalizeAnswer o.caseSensitive content]) taken captchaText) ::
                         (delPromptSteps chan ++ .act .sendIncorrect ::
                          (kickSteps o ++ schedSteps chan))) }
  | _, _, _, [] => none

/-- One full session as `present` drives it: `attemptsLeft` starts at
`this.options.attempts || 1`, `attemptsTaken` at 1, the history empty;
the `prompt` event is emitted once before `handleAttempt(this)`. -/
def runSession (o : CaptchaOptions) (chan : ChanType) (captchaText : String)
    (events : List RoundEvent) : Option SessionResult :=
  (handleAttempt o chan captchaText
      (if truthyInt o.attempts then o.attempts.getD 1 else 1) 1 [] events).map
    (fun r => { r with trace := .emit (promptPayload captchaText) :: r.trace })

/-- Environment facts about the platform for one `present` call: whether
`user.createDM()` resolves, whether `channels.resolve(channelID)` finds a
channel, and whether `send` on each destination succeeds (direct messages
can be locked). -/
structure DeliveryEnv where
  dmReachable : Bool
  channelResolvable : Bool
  dmSendOk : Bool
  channelSendOk : Bool
deriving Repr, DecidableEq

/-- The channel handle `handleChannelType` resolves to. -/
inductive ChannelRef
  | dm
  | guildChannel (id : String)
deriving Repr, DecidableEq

/-- `handleChannelType` (handleChannelType.ts): with a falsy `channelID`
it creates a DM; otherwise only the `sendToTextChannel == true` branch
assigns a channel, so a truthy `channelID` with `sendToTextChannel` not
`true` leaves `channel` undefined and throws, as does an unresolvable
channel (`resolve` returning null). -/
def handleChannelType (o : CaptchaOptions) (env : DeliveryEnv) : Except String ChannelRef :=
  if ¬ truthyStr o.channelID then
    if env.dmReachable then .ok .dm
    else .error "createDM rejected"
  else if o.sendToTextChannel = some true then
    if env.channelResolvable then .ok (.guildChannel (o.channelID.getD ""))
    else .error "Channel not found or not accessible."
  else .error "Channel not found or not accessible."

/-- What the delivery phase of `present` ends in: the prompt was sent to
a channel of the given type (an attempt round starts), or the DM failed
with no `channelID` configured and the call logged and aborted. -/
inductive DeliverResult
  | delivered (chan : ChanType)
  | abortedDMLocked
deriving Repr, DecidableEq

/-- The delivery logic of `present` (lines 221-249): `handleChannelType`
is awaited first (its rejection escapes `present`); then the try block
sends to the configured channel when `channelID` is truthy and
`sendToTextChannel == true`, else to a fresh DM; the catch block
re-resolves `channelID` and, when it is truthy, sends there (a failure
of that send escapes), otherwise logs that DMs are locked and returns
without starting a round. -/
def presentDeliver (o : CaptchaOptions) (env : DeliveryEnv) : Except String DeliverResult :=
  match handleChannelType o env with
  | .error e => .error e
  | .ok _ =>
    let primaryOk :=
      if truthyStr o.channelID ∧ o.sendToTextChannel = some true then
        env.channelResolvable && env.channelSendOk
      else
        env.dmReachable && env.dmSendOk
    let primaryChan : ChanType :=
      if truthyStr o.channelID ∧ o.sendToTextChannel = some true then .guildText else .dm
    if primaryOk then .ok (.delivered primaryChan)
    else if truthyStr o.channelID then
      if env.channelResolvable && env.channelSendOk then .ok (.delivered .guildText)
      else .error "fallback channel send rejected"
    else .ok .abortedDMLocked

/-- A JavaScript value passed as the `image` of a custom captcha: a
Buffer (possibly empty — an object, hence always truthy), a string, a
number, or `undefined`. -/
inductive ImageVal
  | buffer (data : List Nat)
  | strVal (s : String)
  | numVal (n : Int)
  | undef
deriving Repr, DecidableEq

/-- JS truthiness of an `image` value: objects (Buffers) are truthy even
when empty; `""`, `0` and `undefined` are falsy. -/
def ImageVal.jsTruthy : ImageVal → Bool
  | .buffer _ => true
  | .strVal s => s ≠ ""
  | .numVal n => n ≠ 0
  | .undef => false

/-- `Buffer.isBuffer`. -/
def ImageVal.isBuffer : ImageVal → Bool
  | .buffer _ => true
  | _ => false

/-- The `CaptchaImageData` interface: custom image and answer text. -/
structure CaptchaImageData where
  image : ImageVal
  text : String
deriving Repr, DecidableEq

/-- The validation and return value of `present` (lines 180-186, 365):
a falsy member returns `false`; a supplied custom captcha with a falsy
image, falsy text or non-Buffer image returns `false`; otherwise the
delivery phase runs (its exceptions escape) and `present` resolves to
`true` — including when delivery aborted with locked DMs. -/
def Captcha.present (o : CaptchaOptions) (memberPresent : Bool)
    (customCaptcha : Option CaptchaImageData) (env : DeliveryEnv) : Except String Bool :=
  if ¬ memberPresent then .ok false
  else
    match customCaptcha with
    | some c =>
      if ¬ c.image.jsTruthy then .ok false
      else if c.text = "" then .ok false
      else if ¬ c.image.isBuffer then .ok false
      else (presentDeliver o env).map (fun _ => true)
    | none => (presentDeliver o env).map (fun _ => true)

/-- Projects the emitted event out of a trace step. -/
def Step.emission : Step → Option Emission
  | .emit e => some e
  | .act _ => none

/-- The events of a trace, in order, with the side effects dropped. -/
def emissionsOf (t : List Step) : List Emission :=
  t.filterMap Step.emission

/-- The three terminal event kinds. -/
def isTerminalKind : EventKind → Bool
  | .success => true
  | .timeout => true
  | .failure => true
  | .prompt => false
  | .answer => false

/-- Whether a payload carries all five documented fields: member,
response history, attempts taken, captcha text, and options. -/
def carriesAllFive (e : Emission) : Bool :=
  e.hasMember && e.responses.isSome && e.attempts.isSome &&
    e.captchaText.isSome && e.hasOptions

/-- The event kind reporting each terminal outcome. -/
def outcomeKind : Outcome → EventKind
  | .success => .success
  | .timeout => .timeout
  | .exhausted => .failure

@[simp]
lemma emissionsOf_nil : emissionsOf [] = [] := rfl

@[simp]
lemma emissionsOf_cons_emit (e : Emission) (t : List Step) :
    emissionsOf (.emit e :: t) = e :: emissionsOf t := rfl

@[simp]
lemma emissionsOf_cons_act (a : Action) (t : List Step) :
    emissionsOf (.act a :: t) = emissionsOf t := rfl

@[simp]
lemma emissionsOf_append (s t : List Step) :
    emissionsOf (s ++ t) = emissionsOf s ++ emissionsOf t :=
  List.filterMap_append s t Step.emission

@[simp]
lemma emissionsOf_kickSteps (o : CaptchaOptions) : emissionsOf (kickSteps o) = [] := by
  unfold kickSteps; split <;> rfl

@[simp]
lemma emissionsOf_schedSteps (chan : ChanType) : emissionsOf (schedSteps chan) = [] := by
  unfold schedSteps; split <;> rfl

@[simp]
lemma emissionsOf_delRespSteps (chan : ChanType) : emissionsOf (delRespSteps chan) = [] := by
  unfold delRespSteps; split <;> rfl

@[simp]
lemma emissionsOf_addRoleSteps (o : CaptchaOptions) : emissionsOf (addRoleSteps o) = [] := by
  unfold addRoleSteps; split <;> rfl

@[simp]
lemma emissionsOf_delPromptSteps (chan : ChanType) : emissionsOf (delPromptSteps chan) = [] := by
  unfold delPromptSteps; split <;> rfl

@[simp]
lemma emissionsOf_repromptSteps (o : CaptchaOptions) (chan : ChanType) :
    emissionsOf (repromptSteps o chan) = [] := by
  unfold repromptSteps; split <;> [skip; rfl]; split <;> rfl

@[simp]
lemma mem_kickSteps (x : Step) (o : CaptchaOptions) :
    x ∈ kickSteps o ↔
      truthyBool o.kickOnFailure = true ∧ x = .act (.kick "Failed to Pass CAPTCHA") := by
  unfold kickSteps; split <;> simp_all

@[simp]
lemma mem_schedSteps (x : Step) (chan : ChanType) :
    x ∈ schedSteps chan ↔ chan = .guildText ∧ x = .act (.scheduleDeleteReply 3000) := by
  unfold schedSteps; split <;> simp_all

@[simp]
lemma mem_delRespSteps (x : Step) (chan : ChanType) :
    x ∈ delRespSteps chan ↔ chan = .guildText ∧ x = .act .deleteResponse := by
  unfold delRespSteps; split <;> simp_all

@[simp]
lemma mem_addRoleSteps (x : Step) (o : CaptchaOptions) :
    x ∈ addRoleSteps o ↔ o.addRoleOnSuccess = some true ∧ x = .act (.addRole o.roleID) := by
  unfold addRoleSteps; split <;> simp_all

@[simp]
lemma mem_delPromptSteps (x : Step) (chan : ChanType) :
    x ∈ delPromptSteps chan ↔ chan = .guildText ∧ x = .act .deletePrompt := by
  unfold delPromptSteps; split <;> simp_all

@[simp]
lemma mem_repromptSteps (x : Step) (o : CaptchaOptions) (chan : ChanType) :
    x ∈ repromptSteps o chan ↔
      ((chan = .guildText ∧ truthyBool o.showAttemptCount = true ∧ x = .act .editPrompt)
        ∨ (chan ≠ .guildText ∧ x = .act .resendPrompt)) := by
  unfold repromptSteps
  split
  · split <;> simp_all
  · simp_all

/-- Engine emissions of a completed run: some `answer` events followed by
exactly one terminal event, whose payload carries the result's own
history and attempt count. -/
lemma handleAttempt_emissions (o : CaptchaOptions) (chan : ChanType) (text : String) :
    ∀ (evs : List RoundEvent) (L : Int) (taken : Nat) (hist : List String) (r : SessionResult),
      handleAttempt o chan text L taken hist evs = some r →
      ∃ pre, emissionsOf r.trace
            = pre ++ [payloadFull (outcomeKind r.outcome) r.responses r.attempts text]
        ∧ ∀ e ∈ pre, e.kind = .answer := by
  intro evs
  induction evs with
  | nil => intro L taken hist r h; simp [handleAttempt] at h
  | cons ev rest ih =>
    intro L taken hist r h
    cases ev with
    | timeout =>
      simp only [handleAttempt] at h
      obtain rfl := Option.some.inj h
      exact ⟨[], by simp [outcomeKind], by simp⟩
    | response content =>
      by_cases hm : normalizeAnswer o.caseSensitive content = text
      · simp only [handleAttempt, if_pos hm] at h
        obtain rfl := Option.some.inj h
        exact ⟨[answerPayload content taken text], by simp [outcomeKind], by simp [answerPayload]⟩
      · by_cases hl : L > 1
        · simp only [handleAttempt, if_neg hm, if_pos hl, Option.map_eq_some'] at h
          obtain ⟨r', hr', rfl⟩ := h
          obtain ⟨pre, hpre, hans⟩ := ih _ _ _ _ hr'
          refine ⟨answerPayload content taken text :: pre, ?_, ?_⟩
          · simp [hpre]
          · intro e he
            rcases List.mem_cons.mp he with rfl | he'
            · rfl
            · exact hans e he'
        · simp only [handleAttempt, if_neg hm, if_neg hl] at h
          obtain rfl := Option.some.inj h
          exact ⟨[answerPayload content taken text], by simp [outcomeKind], by simp [answerPayload]⟩

/-- Channel-type dependence of the engine's cleanup side effects:
response deletion and the delayed confirmation deletion occur only (and,
for the latter, always) in guild text channels; the prompt is deleted
unconditionally on timeout, and exactly in guild text channels on the
other two outcomes. -/
lemma handleAttempt_cleanup (o : CaptchaOptions) (chan : ChanType) (text : String) :
    ∀ (evs : List RoundEvent) (L : Int) (taken : Nat) (hist : List String) (r : SessionResult),
      handleAttempt o chan text L taken hist evs = some r →
      (Step.act .deleteResponse ∈ r.trace → chan = .guildText)
      ∧ (∀ d, Step.act (.scheduleDeleteReply d) ∈ r.trace → chan = .guildText)
      ∧ (chan = .guildText → Step.act (.scheduleDeleteReply 3000) ∈ r.trace)
      ∧ (r.outcome = .timeout → Step.act .deletePrompt ∈ r.trace)
      ∧ (r.outcome ≠ .timeout → (Step.act .deletePrompt ∈ r.trace ↔ chan = .guildText)) := by
  intro evs
  induction evs with
  | nil => intro L taken hist r h; simp [handleAttempt] at h
  | cons ev rest ih =>
    intro L taken hist r h
    cases ev with
    | timeout =>
      simp only [handleAttempt] at h
      obtain rfl := Option.some.inj h
      refine ⟨?_, ?_, ?_, ?_, ?_⟩ <;> simp
    | response content =>
      by_cases hm : normalizeAnswer o.caseSensitive content = text
      · simp only [handleAttempt, if_pos hm] at h
        obtain rfl := Option.some.inj h
        refine ⟨?_, ?_, ?_, ?_, ?_⟩ <;> simp
      · by_cases hl : L > 1
        · simp only [handleAttempt, if_neg hm, if_pos hl, Option.map_eq_some'] at h
          obtain ⟨r', hr', rfl⟩ := h
          obtain ⟨ih1, ih2, ih3, ih4, ih5⟩ := ih _ _ _ _ hr'
          have htr : ∀ (a : Action),
              Step.act a ∈ Step.emit (answerPayload content taken text) ::
                  (delRespSteps chan ++ repromptSteps o chan ++ r'.trace)
              ↔ (Step.act a ∈ delRespSteps chan ∨ Step.act a ∈ repromptSteps o chan
                  ∨ Step.act a ∈ r'.trace) := by
            intro a
            constructor
            · intro hx
              rcases List.mem_cons.mp hx with he | hx'
              · exact absurd he (by simp)
              · rcases List.mem_append.mp hx' with hx'' | hx''
                · rcases List.mem_append.mp hx'' with hy | hy
                  · exact Or.inl hy
                  · exact Or.inr (Or.inl hy)
                · exact Or.inr (Or.inr hx'')
            · intro hx
              apply List.mem_cons_of_mem
              rcases hx with hy | hy | hy
              · exact List.mem_append.mpr (Or.inl (List.mem_append.mpr (Or.inl hy)))
              · exact List.mem_append.mpr (Or.inl (List.mem_append.mpr (Or.inr hy)))
              · exact List.mem_append.mpr (Or.inr hy)
          refine ⟨?_, ?_, ?_, ?_, ?_⟩
          · intro hmem
            rcases (htr _).mp hmem with hx | hx | hx
            · exact ((mem_delRespSteps _ _).mp hx).1
            · rcases (mem_repromptSteps _ _ _).mp hx with ⟨_, _, he⟩ | ⟨_, he⟩ <;>
                exact absurd he (by simp)
            · exact ih1 hx
          · intro d hmem
            rcases (htr _).mp hmem with hx | hx | hx
            · exact absurd ((mem_delRespSteps _ _).mp hx).2 (by simp)
            · rcases (mem_repromptSteps _ _ _).mp hx with ⟨_, _, he⟩ | ⟨_, he⟩ <;>
                exact absurd he (by simp)
            · exact ih2 d hx
          · intro hg
            exact (htr _).mpr (Or.inr (Or.inr (ih3 hg)))
          · intro ho
            exact (htr _).mpr (Or.inr (Or.inr (ih4 ho)))
          · intro ho
            constructor
            · intro hmem
              rcases (htr _).mp hmem with hx | hx | hx
              · exact absurd ((mem_delRespSteps _ _).mp hx).2 (by simp)
              · rcases (mem_repromptSteps _ _ _).mp hx with ⟨_, _, he⟩ | ⟨_, he⟩ <;>
                  exact absurd he (by simp)
              · exact (ih5 ho).mp hx
            · intro hg
              exact (htr _).mpr (Or.inr (Or.inr ((ih5 ho).mpr hg)))
        · simp only [handleAttempt, if_neg hm, if_neg hl] at h
          obtain rfl := Option.some.inj h
          refine ⟨?_, ?_, ?_, ?_, ?_⟩ <;> simp

/-- A run fed exactly as many non-matching responses as there are
attempts left ends exhausted, taking one attempt per response and
appending each normalized response to the history. -/
lemma handleAttempt_all_wrong (o : CaptchaOptions) (chan : ChanType) (text : String) :
    ∀ (rs : List String) (taken : Nat) (hist : List String),
      rs ≠ [] → (∀ s ∈ rs, normalizeAnswer o.caseSensitive s ≠ text) →
      ∃ r, handleAttempt o chan text (rs.length : Int) taken hist (rs.map .response) = some r
        ∧ r.outcome = .exhausted
        ∧ r.attempts + 1 = taken + rs.length
        ∧ r.responses = hist ++ rs.map (normalizeAnswer o.caseSensitive) := by
  intro rs
  induction rs with
  | nil => intro taken hist hne _; exact absurd rfl hne
  | cons s rest ih =>
    intro taken hist _ hwrong
    have hs : normalizeAnswer o.caseSensitive s ≠ text := hwrong s (by simp)
    by_cases hrest : rest = []
    · subst hrest
      have heq : handleAttempt o chan text (([s] : List String).length : Int) taken hist
            ([s].map .response)
          = some { outcome := .exhausted, attempts := taken,
                   responses := hist ++ [normalizeAnswer o.caseSensitive s],
                   trace := .emit (answerPayload s taken text) ::
                            (delRespSteps chan ++
                             .emit (payloadFull .failure
                               (hist ++ [normalizeAnswer o.caseSensitive s]) taken text) ::
                             (delPromptSteps chan ++ .act .sendIncorrect ::
                              (kickSteps o ++ schedSteps chan))) } := by
        simp only [List.map_cons, List.map_nil, List.length_cons, List.length_nil,
          Nat.zero_add, Nat.cast_one, handleAttempt, if_neg hs]
        rw [if_neg (by omega)]
      exact ⟨_, heq, rfl, by simp, by simp⟩
    · have hlen : (1 : Int) < ((s :: rest).length : Int) := by
        have : 1 ≤ rest.length := List.length_pos.mpr hrest
        simp only [List.length_cons]
        push_cast
        omega
      obtain ⟨r', hr', ho', ha', hresp'⟩ :=
        ih (taken + 1) (hist ++ [normalizeAnswer o.caseSensitive s]) hrest
          (fun t ht => hwrong t (by simp [ht]))
      have hcast : ((s :: rest).length : Int) - 1 = (rest.length : Int) := by
        simp only [List.length_cons]; push_cast; ring
      have heq : handleAttempt o chan text ((s :: rest).length : Int) taken hist
            ((s :: rest).map .response)
          = some { r' with trace := .emit (answerPayload s taken text) ::
                     (delRespSteps chan ++ repromptSteps o chan ++ r'.trace) } := by
        simp only [List.map_cons, handleAttempt, if_neg hs]
        rw [if_pos hlen, hcast, hr']
        rfl
      refine ⟨_, heq, ?_, ?_, ?_⟩
      · exact ho'
      · dsimp only
        simp only [List.length_cons]
        omega
      · dsimp only
        rw [hresp']
        simp [List.append_assoc]

/-- C1 (counterexample): with `caseSensitive = false` and expected answer
"AB3F9Q", the response "ab3f9q" is NOT judged a match — the one-attempt
session exhausts instead of succeeding — because the code lowercases only
the response, never the expected answer. -/
theorem c1_counterexample :
    (runSession { caseSensitive := some false, attempts := some 1 } .dm "AB3F9Q"
        [.response "ab3f9q"]).map (fun r => r.outcome) = some .exhausted
    ∧ (runSession { caseSensitive := some false, attempts := some 1 } .dm "AB3F9Q"
        [.response "ab3f9q"]).map (fun r => r.outcome) ≠ some .success := by
  decide

/-- C1 (amended): the comparison lowercases only the member's response:
a first-round response succeeds exactly when its normalization equals the
expected answer verbatim, where normalization lowercases the response
precisely when `caseSensitive` is not `true` and never touches the
expected answer. -/
theorem c1_amended (o : CaptchaOptions) (chan : ChanType) (text : String) (L : Int)
    (taken : Nat) (hist : List String) (c : String) :
    ((handleAttempt o chan text L taken hist [.response c]).map (fun r => r.outcome)
        = some .success ↔ normalizeAnswer o.caseSensitive c = text)
    ∧ normalizeAnswer (some true) c = c
    ∧ normalizeAnswer (some false) c = jsToLowerCase c
    ∧ normalizeAnswer none c = jsToLowerCase c := by
  refine ⟨?_, by simp [normalizeAnswer], by simp [normalizeAnswer], by simp [normalizeAnswer]⟩
  by_cases hm : normalizeAnswer o.caseSensitive c = text
  · simp [handleAttempt, hm]
  · by_cases hl : L > 1 <;> simp [handleAttempt, hm, hl]

/-- C2 (code bug): constructing with an empty options object leaves
`kickOnFailure` undefined — contradicting the documented default of
`true` — so a failed or timed-out session performs no kick; the other
documented defaults are applied (`sendToTextChannel` also stays
undefined, which behaves as `false`). -/
theorem c2_kick_default_code_bug :
    Captcha.construct {}
      = .ok { addRoleOnSuccess := some true, attempts := some 1, caseSensitive := some true,
              timeout := some 60000, showAttemptCount := some true }
    ∧ ({ addRoleOnSuccess := some true, attempts := some 1, caseSensitive := some true,
         timeout := some 60000, showAttemptCount := some true } : CaptchaOptions).kickOnFailure
        = none
    ∧ ({ addRoleOnSuccess := some true, attempts := some 1, caseSensitive := some true,
         timeout := some 60000, showAttemptCount := some true } : CaptchaOptions).sendToTextChannel
        = none
    ∧ (runSession
          { addRoleOnSuccess := some true, attempts := some 1, caseSensitive := some true,
            timeout := some 60000, showAttemptCount := some true }
          ChanType.guildText "x" [.response "y"]).map
        (fun r => (r.outcome, r.trace.contains (.act (.kick "Failed to Pass CAPTCHA"))))
      = some (.exhausted, false)
    ∧ (runSession
          { addRoleOnSuccess := some true, attempts := some 1, caseSensitive := some true,
            timeout := some 60000, showAttemptCount := some true }
          ChanType.guildText "x" [.timeout]).map
        (fun r => (r.outcome, r.trace.contains (.act (.kick "Failed to Pass CAPTCHA"))))
      = some (.timeout, false) := by
  exact ⟨rfl, rfl, rfl, by decide, by decide⟩

/-- C3 (counterexample): `attempts = 0` and `timeout = 0` do not abort
construction — they are silently replaced by the defaults 1 and 60000 —
and an omitted `addRoleOnSuccess` (defaulted to `true`) with no `roleID`
also constructs successfully, contradicting the claim that all these
violations are fatal. -/
theorem c3_counterexample :
    Captcha.construct { attempts := some 0 }
      = .ok { addRoleOnSuccess := some true, attempts := some 1, caseSensitive := some true,
              timeout := some 60000, showAttemptCount := some true }
    ∧ Captcha.construct { timeout := some 0 }
      = .ok { addRoleOnSuccess := some true, attempts := some 1, caseSensitive := some true,
              timeout := some 60000, showAttemptCount := some true }
    ∧ Captcha.construct {}
      = .ok { addRoleOnSuccess := some true, attempts := some 1, caseSensitive := some true,
              timeout := some 60000, showAttemptCount := some true } := by
  exact ⟨rfl, rfl, rfl⟩

/-- C3 (amended): construction is fatal exactly when `sendToTextChannel`
is explicitly `true` with a falsy `channelID`, or `addRoleOnSuccess` is
explicitly `true` with a falsy `roleID`, or `attempts` is supplied,
nonzero and below 1, or `timeout` is supplied, nonzero and below 1;
supplied zeros are treated as absent and silently defaulted, and the
defaulted-true `addRoleOnSuccess` is never checked against `roleID`. -/
theorem c3_amended (o : CaptchaOptions) :
    (∃ e, Captcha.construct o = .error e) ↔
      ((o.sendToTextChannel = some true ∧ truthyStr o.channelID = false)
        ∨ (o.addRoleOnSuccess = some true ∧ truthyStr o.roleID = false)
        ∨ (∃ n : Int, o.attempts = some n ∧ n ≠ 0 ∧ n < 1)
        ∨ (∃ n : Int, o.timeout = some n ∧ n ≠ 0 ∧ n < 1)) := by
  have hatt : (truthyInt o.attempts ∧ o.attempts.getD 0 < 1)
      ↔ (∃ n : Int, o.attempts = some n ∧ n ≠ 0 ∧ n < 1) := by
    cases ho : o.attempts <;> simp [truthyInt]
  have htim : (truthyInt o.timeout ∧ o.timeout.getD 0 < 1)
      ↔ (∃ n : Int, o.timeout = some n ∧ n ≠ 0 ∧ n < 1) := by
    cases ho : o.timeout <;> simp [truthyInt]
  constructor
  · rintro ⟨e, he⟩
    unfold Captcha.construct at he
    split_ifs at he with h1 h2 h3 h4
    · exact Or.inl ⟨h1.1, by simpa using h1.2⟩
    · exact Or.inr (Or.inl ⟨h2.1, by simpa using h2.2⟩)
    · exact Or.inr (Or.inr (Or.inl (hatt.mp h3)))
    · exact Or.inr (Or.inr (Or.inr (htim.mp h4)))
  · intro hc
    unfold Captcha.construct
    split_ifs with h1 h2 h3 h4
    · exact ⟨_, rfl⟩
    · exact ⟨_, rfl⟩
    · exact ⟨_, rfl⟩
    · exact ⟨_, rfl⟩
    · exfalso
      rcases hc with ⟨ha, hb⟩ | ⟨ha, hb⟩ | hn | hn
      · exact h1 ⟨ha, by simp [hb]⟩
      · exact h2 ⟨ha, by simp [hb]⟩
      · exact h3 (hatt.mpr hn)
      · exact h4 (htim.mpr hn)

/-- C5: a session whose first round times out ends in the timeout
outcome with attemptsTaken 1 and an empty history, for every
configuration, channel type and remaining-event list — a timeout
cancels the whole session regardless of remaining attempts and is never
retried. -/
theorem c5_timeout_terminal (o : CaptchaOptions) (chan : ChanType) (text : String)
    (rest : List RoundEvent) :
    (runSession o chan text (.timeout :: rest)).map
        (fun r => (r.outcome, r.attempts, r.responses)) = some (.timeout, 1, []) := by
  simp [runSession, handleAttempt]

/-- C7 (code bug): with `channelID` configured and `sendToTextChannel`
unset — the documented DM-with-fallback configuration — the resolver
throws "Channel not found or not accessible." even though the member's
direct messages and the configured channel are both reachable, and the
rejection escapes `present` before any delivery attempt or engine
round. -/
theorem c7_resolver_code_bug :
    handleChannelType { channelID := some "123" }
        { dmReachable := true, channelResolvable := true, dmSendOk := true,
          channelSendOk := true }
      = .error "Channel not found or not accessible."
    ∧ Captcha.present { channelID := some "123" } true none
        { dmReachable := true, channelResolvable := true, dmSendOk := true,
          channelSendOk := true }
      = .error "Channel not found or not accessible." := by
  exact ⟨rfl, rfl⟩

/-- C4: with `attempts = N ≥ 1`, a session of N consecutive
non-matching qualifying responses ends exhausted with attemptsTaken `N`
and a history of length `N`; the whole trace contains exactly the one
initial `prompt` notification, and when `N = 1` no re-prompt render
(edit or resend) ever occurs. -/
theorem c4_exhaustion (o : CaptchaOptions) (chan : ChanType) (text : String) (N : Nat)
    (rs : List String) (hN : o.attempts = some (N : Int)) (hpos : 1 ≤ N)
    (hlen : rs.length = N)
    (hwrong : ∀ s ∈ rs, normalizeAnswer o.caseSensitive s ≠ text) :
    ∃ r, runSession o chan text (rs.map .response) = some r
      ∧ r.outcome = .exhausted ∧ r.attempts = N ∧ r.responses.length = N
      ∧ (emissionsOf r.trace).filter (fun e => e.kind == .prompt) = [promptPayload text]
      ∧ (N = 1 → Step.act .editPrompt ∉ r.trace ∧ Step.act .resendPrompt ∉ r.trace) := by
  have hne : rs ≠ [] := by
    intro h
    rw [h] at hlen
    simp at hlen
    omega
  obtain ⟨re, hre, ho, ha, hresp⟩ := handleAttempt_all_wrong o chan text rs 1 [] hne hwrong
  have hNne : ((N : Int) ≠ 0) := by
    have : N ≠ 0 := Nat.one_le_iff_ne_zero.mp hpos
    exact_mod_cast this
  have hL : (if truthyInt o.attempts then o.attempts.getD 1 else 1) = (rs.length : Int) := by
    rw [hN, hlen]
    simp [truthyInt, hNne]
  have hrun : runSession o chan text (rs.map .response)
      = some { re with trace := .emit (promptPayload text) :: re.trace } := by
    unfold runSession
    rw [hL, hre]
    rfl
  refine ⟨_, hrun, ho, ?_, ?_, ?_, ?_⟩
  · dsimp only
    omega
  · dsimp only
    rw [hresp]
    simp [hlen]
  · dsimp only
    obtain ⟨pre, hpre, hans⟩ := handleAttempt_emissions o chan text _ _ _ _ _ hre
    have hp2 : pre.filter (fun e => e.kind == EventKind.prompt) = [] := by
      apply List.filter_eq_nil_iff.mpr
      intro e he
      simp [hans e he]
    have hp3 : (payloadFull (outcomeKind re.outcome) re.responses re.attempts text).kind
        = EventKind.failure := by
      simp [payloadFull, ho, outcomeKind]
    simp [hpre, List.filter_cons, List.filter_append, hp2, hp3, promptPayload]
  · intro h1
    obtain ⟨s, rfl⟩ := List.length_eq_one.mp (hlen.trans h1)
    have hw := hwrong s (by simp)
    have heval : handleAttempt o chan text ((([s] : List String).length : Int)) 1 []
          ([s].map .response)
        = some { outcome := .exhausted, attempts := 1,
                 responses := [] ++ [normalizeAnswer o.caseSensitive s],
                 trace := .emit (answerPayload s 1 text) ::
                          (delRespSteps chan ++
                           .emit (payloadFull .failure
                             ([] ++ [normalizeAnswer o.caseSensitive s]) 1 text) ::
                           (delPromptSteps chan ++ .act .sendIncorrect ::
                            (kickSteps o ++ schedSteps chan))) } := by
      simp only [List.map_cons, List.map_nil, List.length_cons, List.length_nil,
        Nat.zero_add, Nat.cast_one, handleAttempt, if_neg hw]
      rw [if_neg (by omega)]
    rw [heval] at hre
    obtain rfl := Option.some.inj hre
    refine ⟨?_, ?_⟩ <;> dsimp only <;> simp

/-- C4 witness: a concrete two-attempt session with two wrong responses
ends exhausted with attemptsTaken 2 and two history entries. -/
theorem c4_exhaustion_witness :
    (runSession { attempts := some 2 } .dm "z" [.response "a", .response "b"]).map
        (fun r => (r.outcome, r.attempts, r.responses.length)) = some (.exhausted, 2, 2) := by
  obtain ⟨r, h1, h2, h3, h4, _, _⟩ :=
    c4_exhaustion { attempts := some 2 } .dm "z" 2 ["a", "b"] rfl (by omega) rfl (by decide)
  simp only [List.map_cons, List.map_nil] at h1
  rw [h1]
  simp [h2, h3, h4]

/-- C6: the first response whose normalization equals the expected
answer ends the session in success regardless of the remaining attempt
budget, with the attempts counter and history as of that round; in the
concrete scenario (3 attempts, case-sensitive, expected "K7TPLX",
responses "wrong1" then "K7TPLX") the outcome is success with
attemptsTaken 2 and history ["wrong1", "K7TPLX"]. -/
theorem c6_first_match_success :
    (∀ (o : CaptchaOptions) (chan : ChanType) (text : String) (L : Int) (taken : Nat)
        (hist : List String) (c : String) (rest : List RoundEvent),
        normalizeAnswer o.caseSensitive c = text →
        (handleAttempt o chan text L taken hist (.response c :: rest)).map
            (fun r => (r.outcome, r.attempts, r.responses))
          = some (.success, taken, hist ++ [text]))
    ∧ (runSession { caseSensitive := some true, attempts := some 3 } .dm "K7TPLX"
          [.response "wrong1", .response "K7TPLX"]).map
        (fun r => (r.outcome, r.attempts, r.responses))
      = some (.success, 2, ["wrong1", "K7TPLX"]) := by
  constructor
  · intro o chan text L taken hist c rest hm
    simp [handleAttempt, hm]
  · decide

/-- C6 witness: a matching first response at a concrete input. -/
theorem c6_first_match_success_witness :
    (handleAttempt { caseSensitive := some true } .dm "K7TPLX" 3 1 []
        [.response "K7TPLX"]).map (fun r => (r.outcome, r.attempts, r.responses))
      = some (.success, 1, ["K7TPLX"]) := by
  simpa using
    c6_first_match_success.1 { caseSensitive := some true } .dm "K7TPLX" 3 1 [] "K7TPLX" []
      (by decide)

/-- C8 (counterexample): in a concrete session the `prompt` event
carries neither the response history nor the attempts count, and the
`answer` event carries the singular response instead of the history —
so not every emitted notification carries all five payload fields. -/
theorem c8_counterexample :
    (runSession {} .dm "x" [.response "x"]).map
        (fun r => (emissionsOf r.trace).map (fun e => (e.kind, carriesAllFive e)))
      = some [(.prompt, false), (.answer, false), (.success, true)] := by
  decide

/-- C8 (amended): every completed session emits one `prompt` event
(member, captcha text and options only), then `answer` events (carrying
the singular raw response instead of the history), then — last and
exactly once — the terminal `success`/`timeout`/`failure` event
matching the outcome, which does carry all five payload fields. -/
theorem c8_amended (o : CaptchaOptions) (chan : ChanType) (text : String)
    (evs : List RoundEvent) (r : SessionResult)
    (h : runSession o chan text evs = some r) :
    ∃ pre, emissionsOf r.trace
        = promptPayload text ::
            (pre ++ [payloadFull (outcomeKind r.outcome) r.responses r.attempts text])
      ∧ (∀ e ∈ pre, e.kind = .answer ∧ isTerminalKind e.kind = false)
      ∧ isTerminalKind (promptPayload text).kind = false
      ∧ carriesAllFive (payloadFull (outcomeKind r.outcome) r.responses r.attempts text) = true
      ∧ isTerminalKind (outcomeKind r.outcome) = true := by
  unfold runSession at h
  rw [Option.map_eq_some'] at h
  obtain ⟨re, hre, rfl⟩ := h
  obtain ⟨pre, hpre, hans⟩ := handleAttempt_emissions o chan text _ _ _ _ _ hre
  have hterm : ∀ oc : Outcome, isTerminalKind (outcomeKind oc) = true := by
    intro oc
    cases oc <;> rfl
  refine ⟨pre, ?_, ?_, rfl, rfl, hterm _⟩
  · dsimp only
    simp [hpre]
  · intro e he
    refine ⟨hans e he, ?_⟩
    rw [hans e he]
    rfl

/-- C8 witness: the terminal success event of a concrete session carries
all five payload fields. -/
theorem c8_amended_witness :
    carriesAllFive (payloadFull (outcomeKind .success) ["x"] 1 "x") = true := by
  have h : runSession {} .dm "x" [.response "x"]
      = some { outcome := .success, attempts := 1, responses := ["x"],
               trace := [.emit (promptPayload "x"), .emit (answerPayload "x" 1 "x"),
                         .emit (payloadFull .success ["x"] 1 "x"), .act .sendCorrect] } := by
    decide
  obtain ⟨pre, _, _, _, h5, _⟩ := c8_amended {} .dm "x" [.response "x"] _ h
  exact h5

/-- C9 (counterexample): `present` resolves to `true` even when DM
delivery failed with no fallback configured and no presentation was
initiated, and a custom captcha whose image is an empty Buffer is
accepted rather than rejected. -/
theorem c9_counterexample :
    Captcha.present {} true none
        { dmReachable := true, channelResolvable := true, dmSendOk := false,
          channelSendOk := true } = .ok true
    ∧ presentDeliver {}
        { dmReachable := true, channelResolvable := true, dmSendOk := false,
          channelSendOk := true } = .ok .abortedDMLocked
    ∧ Captcha.present {} true (some { image := .buffer [], text := "abc" })
        { dmReachable := true, channelResolvable := true, dmSendOk := true,
          channelSendOk := true } = .ok true := by
  exact ⟨rfl, rfl, rfl⟩

/-- C9 (amended): `present` returns `false` for an absent member or a
custom captcha with a falsy image, empty answer text or non-Buffer
image (an empty Buffer is an object, hence truthy and accepted); and
whenever channel resolution and delivery do not throw it returns `true`
regardless of whether the prompt was delivered or a round started — the
return value indicates neither successful initiation nor the member's
eventual pass/fail. -/
theorem c9_amended :
    (∀ (o : CaptchaOptions) (custom : Option CaptchaImageData) (env : DeliveryEnv),
        Captcha.present o false custom env = .ok false)
    ∧ (∀ (o : CaptchaOptions) (env : DeliveryEnv) (c : CaptchaImageData),
        c.image.jsTruthy = false ∨ c.text = "" ∨ c.image.isBuffer = false →
        Captcha.present o true (some c) env = .ok false)
    ∧ (∀ (o : CaptchaOptions) (env : DeliveryEnv) (d : DeliverResult),
        presentDeliver o env = .ok d → Captcha.present o true none env = .ok true) := by
  refine ⟨?_, ?_, ?_⟩
  · intro o custom env
    simp [Captcha.present]
  · intro o env c hc
    have hshape : Captcha.present o true (some c) env
        = if ¬ c.image.jsTruthy then .ok false
          else if c.text = "" then .ok false
          else if ¬ c.image.isBuffer then .ok false
          else (presentDeliver o env).map (fun _ => true) := by
      simp [Captcha.present]
    rw [hshape]
    rcases hc with hc | hc | hc
    · rw [if_pos (by simp [hc])]
    · by_cases h1 : c.image.jsTruthy
      · rw [if_neg (by simp [h1]), if_pos hc]
      · rw [if_pos (by simp [h1])]
    · by_cases h1 : c.image.jsTruthy
      · by_cases h2 : c.text = ""
        · rw [if_neg (by simp [h1]), if_pos h2]
        · rw [if_neg (by simp [h1]), if_neg h2, if_pos (by simp [hc])]
      · rw [if_pos (by simp [h1])]
  · intro o env d h
    simp [Captcha.present, h, Except.map]

/-- C9 witness: a custom captcha with an undefined image is rejected at
a concrete input. -/
theorem c9_amended_witness :
    Captcha.present {} true (some { image := .undef, text := "abc" })
        { dmReachable := true, channelResolvable := true, dmSendOk := true,
          channelSendOk := true }
      = .ok false :=
  c9_amended.2.1 {} _ _ (Or.inl rfl)

/-- C10: message cleanup is channel-type dependent — response deletion
and the 3-second-delayed confirmation deletion happen only in guild
text channels (and the confirmation deletion is always scheduled
there); the prompt is deleted unconditionally on timeout regardless of
channel type, but on success or exhaustion exactly when the channel is
a guild text channel. -/
theorem c10_cleanup (o : CaptchaOptions) (chan : ChanType) (text : String)
    (evs : List RoundEvent) (r : SessionResult)
    (h : runSession o chan text evs = some r) :
    (Step.act .deleteResponse ∈ r.trace → chan = .guildText)
    ∧ (∀ d, Step.act (.scheduleDeleteReply d) ∈ r.trace → chan = .guildText)
    ∧ (chan = .guildText → Step.act (.scheduleDeleteReply 3000) ∈ r.trace)
    ∧ (r.outcome = .timeout → Step.act .deletePrompt ∈ r.trace)
    ∧ (r.outcome ≠ .timeout → (Step.act .deletePrompt ∈ r.trace ↔ chan = .guildText)) := by
  unfold runSession at h
  rw [Option.map_eq_some'] at h
  obtain ⟨re, hre, rfl⟩ := h
  obtain ⟨h1, h2, h3, h4, h5⟩ := handleAttempt_cleanup o chan text _ _ _ _ _ hre
  have hmem : ∀ (a : Action),
      (Step.act a ∈ Step.emit (promptPayload text) :: re.trace) ↔ Step.act a ∈ re.trace := by
    intro a
    constructor
    · intro hx
      rcases List.mem_cons.mp hx with he | hx'
      · exact absurd he (by simp)
      · exact hx'
    · exact List.mem_cons_of_mem _
  refine ⟨?_, ?_, ?_, ?_, ?_⟩
  · intro hx
    exact h1 ((hmem _).mp hx)
  · intro d hx
    exact h2 d ((hmem _).mp hx)
  · intro hg
    exact (hmem _).mpr (h3 hg)
  · intro ho
    exact (hmem _).mpr (h4 ho)
  · intro ho
    exact ⟨fun hx => (h5 ho).mp ((hmem _).mp hx),
           fun hg => (hmem _).mpr ((h5 ho).mpr hg)⟩

/-- C10 witness: the prompt of a timed-out DM session is deleted. -/
theorem c10_cleanup_witness :
    Step.act Action.deletePrompt ∈
      [Step.emit (promptPayload "x"), Step.emit (payloadFull .timeout [] 1 "x"),
       Step.act .deletePrompt, Step.act .sendIncorrect] := by
  have h : runSession ({} : CaptchaOptions) .dm "x" [.timeout]
      = some { outcome := .timeout, attempts := 1, responses := [],
               trace := [.emit (promptPayload "x"), .emit (payloadFull .timeout [] 1 "x"),
                         .act .deletePrompt, .act .sendIncorrect] } := by
    decide
  exact (c10_cleanup {} .dm "x" [.timeout] _ h).2.2.2.1 rfl

end DJSCaptcha
